import Mathlib

/-!
Shallow embedding of the supervisor notification broker
(`components/supervisor/pkg/supervisor/notification.go`).

The broker state (`NotificationService`) is modelled as a pure record; the
Go maps become association lists / lists, Go channels become explicit
buffer-plus-closed-flag records, and each operation that in Go runs under
the broker mutex becomes a pure state-passing function.  Eviction during
fan-out returns the closed subscriptions explicitly (in Go they only leave
through `subscription.close`).
-/

namespace Notification

/-- `api.NotifyRequest_Open` (only its presence matters to the broker). -/
structure NotifyOpen where
  url : String
  deriving Repr, DecidableEq

/-- `api.NotifyRequest_Preview` (only its presence matters to the broker). -/
structure NotifyPreview where
  url : String
  deriving Repr, DecidableEq

/-- `api.NotifyRequest`. -/
structure NotifyRequest where
  Message : String
  Active : Bool
  Actions : List String
  Open : Option NotifyOpen
  Preview : Option NotifyPreview
  deriving Repr, DecidableEq

/-- `api.NotifyResponse_Command`. -/
structure Command where
  Cmd : String
  deriving Repr, DecidableEq

/-- `api.NotifyResponse`. -/
structure NotifyResponse where
  Action : String
  Command : Option Command
  deriving Repr, DecidableEq

/-- The empty `&api.NotifyResponse{}` value. -/
def emptyNotifyResponse : NotifyResponse := { Action := "", Command := none }

/-- `api.SubscribeRequest`. -/
structure SubscribeRequest where
  Active : Bool
  deriving Repr, DecidableEq

/-- `api.SubscribeResponse`: the fan-out envelope `(requestId, request)`. -/
structure SubscribeResponse where
  RequestId : Nat
  Request : NotifyRequest
  deriving Repr, DecidableEq

/-- `api.RespondRequest`. -/
structure RespondRequest where
  RequestId : Nat
  Response : NotifyResponse
  deriving Repr, DecidableEq

/-- A Go channel of `*api.NotifyResponse` (capacity 1 in the source):
its buffered contents plus the closed flag. -/
structure RespChannel where
  buffer : List NotifyResponse
  closed : Bool
  deriving Repr, DecidableEq

/-- A Go channel of `*api.SubscribeResponse` with its creation capacity. -/
structure SubChannel where
  buffer : List SubscribeResponse
  capacity : Nat
  closed : Bool
  deriving Repr, DecidableEq

/-- gRPC status codes the broker uses. -/
inductive ErrCode where
  | resourceExhausted
  | aborted
  | deadlineExceeded
  | invalidArgument
  | internal
  deriving Repr, DecidableEq

/-- `pendingNotification`: an in-flight notification awaiting a response. -/
structure pendingNotification where
  message : SubscribeResponse
  responseChannel : RespChannel
  closed : Bool
  deriving Repr, DecidableEq

/-- `pendingNotification.close`: the `once.Do` guard makes closing idempotent;
it closes the response channel and sets the closed flag. -/
def pendingNotification.close (p : pendingNotification) : pendingNotification :=
  if p.closed then p
  else { p with responseChannel := { p.responseChannel with closed := true }, closed := true }

/-- Sending a value on the pending notification's response channel. -/
def pendingNotification.send (p : pendingNotification) (resp : NotifyResponse) :
    pendingNotification :=
  { p with responseChannel := { p.responseChannel with buffer := p.responseChannel.buffer ++ [resp] } }

/-- `subscription`: one registered subscriber.  The Go `cancel` context
function is modelled by the `cancelled` flag. -/
structure subscription where
  id : Nat
  active : Bool
  channel : SubChannel
  closed : Bool
  cancelled : Bool
  deriving Repr, DecidableEq

/-- `subscription.close`: idempotent via `once.Do`; closes the channel, sets
the closed flag and cancels the subscriber context. -/
def subscription.close (s : subscription) : subscription :=
  if s.closed then s
  else { s with channel := { s.channel with closed := true }, closed := true, cancelled := true }

/-- `NotificationService`: the broker state guarded by the mutex. -/
structure NotificationService where
  nextSubscriptionID : Nat
  subscriptions : List subscription
  nextNotificationID : Nat
  pendingNotifications : List (Nat × pendingNotification)
  deriving Repr, DecidableEq

/-- `NewNotificationService`. -/
def NewNotificationService : NotificationService :=
  { nextSubscriptionID := 0, subscriptions := [], nextNotificationID := 0,
    pendingNotifications := [] }

def NotifierMaxPendingNotifications : Nat := 120

def SubscriberMaxPendingNotifications : Nat := 100

/-- `isBlocking`: a request demands a response iff it has actions, an open
target or a preview target. -/
def isBlocking (req : NotifyRequest) : Bool :=
  !req.Actions.isEmpty || req.Open.isSome || req.Preview.isSome

/-- `subscription.supports`: eligibility is equality of the `active` flags. -/
def subscription.supports (s : subscription) (req : NotifyRequest) : Bool :=
  s.active == req.Active

/-- `validateResponse`: a response is valid against the original request iff
a populated command has a non-empty `Cmd`, or (no command) the action is
empty (user cancellation) or appears in the request's action list. -/
def validateResponse (resp : NotifyResponse) (req : NotifyRequest) : Bool :=
  match resp.Command with
  | some command => command.Cmd != ""
  | none =>
    if resp.Action == "" then
      -- user cancelled, which is always allowed
      true
    else
      req.Actions.contains resp.Action

/-- The non-blocking try-send of the fan-out loop (`select`/`default`):
`some` of the updated subscription on success, `none` when the queue is full. -/
def trySend (s : subscription) (msg : SubscribeResponse) : Option subscription :=
  if s.channel.buffer.length < s.channel.capacity then
    some { s with channel := { s.channel with buffer := s.channel.buffer ++ [msg] } }
  else
    none

/-- The fan-out loop of `notifySubscribers` over the registry: returns the
registry after the loop and the list of subscriptions that were evicted
(deleted from the registry and closed). -/
def fanOut (msg : SubscribeResponse) (req : NotifyRequest) :
    List subscription → List subscription × List subscription
  | [] => ([], [])
  | s :: rest =>
    let (kept, evicted) := fanOut msg req rest
    if s.supports req then
      match trySend s msg with
      | some s' => (s' :: kept, evicted)
      | none => (kept, s.close :: evicted)
    else
      (s :: kept, evicted)

/-- `notifySubscribers`: under the mutex, assign the next notification id,
fan the envelope out to eligible subscribers (evicting full ones), insert a
fresh pending notification into the table, and for non-blocking requests
pre-load the response channel with an empty response and close the entry.
Returns the new state, the evicted subscriptions, and the pending entry. -/
def notifySubscribers (srv : NotificationService) (req : NotifyRequest) :
    NotificationService × List subscription × pendingNotification :=
  let requestID := srv.nextNotificationID
  let message : SubscribeResponse := { RequestId := requestID, Request := req }
  let (kept, evicted) := fanOut message req srv.subscriptions
  let channel : RespChannel := { buffer := [], closed := false }
  let pending0 : pendingNotification :=
    { message := message, responseChannel := channel, closed := false }
  let pending :=
    if !isBlocking req then
      -- produce an immediate response
      (pending0.send emptyNotifyResponse).close
    else pending0
  ({ srv with
      nextNotificationID := requestID + 1,
      subscriptions := kept,
      pendingNotifications := srv.pendingNotifications ++ [(requestID, pending)] },
   evicted, pending)

/-- The producer-visible outcome of `Notify`'s `select`. -/
inductive NotifyOutcome where
  | response (resp : NotifyResponse)
  | aborted
  | waiting (requestId : Nat)
  deriving Repr, DecidableEq

/-- The receive arm of `Notify`'s `select` on the response channel: a
buffered value is returned; a closed empty channel yields `Aborted`; an open
empty channel means the producer keeps waiting. -/
def notifyWait (p : pendingNotification) : NotifyOutcome :=
  match p.responseChannel.buffer with
  | resp :: _ => .response resp
  | [] => if p.responseChannel.closed then .aborted else .waiting p.message.RequestId

/-- `Notify`: admission check against the pending-table capacity, then
dispatch via `notifySubscribers` and wait on the response channel. -/
def Notify (srv : NotificationService) (req : NotifyRequest) :
    Except ErrCode NotifyOutcome × NotificationService :=
  if NotifierMaxPendingNotifications ≤ srv.pendingNotifications.length then
    (.error .resourceExhausted, srv)
  else
    let (srv', _evicted, pending) := notifySubscribers srv req
    (.ok (notifyWait pending), srv')

/-- The replay loop of `subscribeLocked` over the pending table: collects the
envelopes of eligible entries (in table order) and the table remaining after
eligible non-blocking entries are deleted. -/
def replay (active : Bool) :
    List (Nat × pendingNotification) → List SubscribeResponse × List (Nat × pendingNotification)
  | [] => ([], [])
  | e :: rest =>
    let (msgs, kept) := replay active rest
    if e.2.message.Request.Active == active then
      if isBlocking e.2.message.Request then
        (e.2.message :: msgs, e :: kept)
      else
        -- non-blocking entries are delivered to this joiner and removed
        (e.2.message :: msgs, kept)
    else
      (msgs, e :: kept)

/-- `subscribeLocked`: allocate the subscription with queue capacity
`max(SubscriberMaxPendingNotifications, |pending|)`, register it, and replay
eligible pending entries onto its queue. -/
def subscribeLocked (srv : NotificationService) (req : SubscribeRequest) :
    NotificationService × subscription :=
  -- account for some back pressure
  let capacity :=
    if SubscriberMaxPendingNotifications > srv.pendingNotifications.length then
      SubscriberMaxPendingNotifications
    else srv.pendingNotifications.length
  let id := srv.nextSubscriptionID
  let (msgs, kept) := replay req.Active srv.pendingNotifications
  let sub : subscription :=
    { id := id, active := req.Active,
      channel := { buffer := msgs, capacity := capacity, closed := false },
      closed := false, cancelled := false }
  ({ srv with
      nextSubscriptionID := id + 1,
      subscriptions := srv.subscriptions ++ [sub],
      pendingNotifications := kept }, sub)

/-- `unsubscribeLocked`: remove the subscription from the registry (if still
present) and close it. -/
def unsubscribeLocked (srv : NotificationService) (subscriptionID : Nat) :
    NotificationService × Option subscription :=
  match srv.subscriptions.find? (fun s => s.id == subscriptionID) with
  | none => (srv, none)
  | some s =>
    ({ srv with subscriptions := srv.subscriptions.filter (fun t => t.id != subscriptionID) },
     some s.close)

/-- Deleting a key from the pending table (`delete(srv.pendingNotifications, k)`). -/
def removeKey (k : Nat) (l : List (Nat × pendingNotification)) :
    List (Nat × pendingNotification) :=
  l.filter (fun e => e.1 != k)

/-- The result of `Respond`: the gRPC result, the broker state after the
call, and the final state of the pending entry the call looked up (`none`
when the id was absent) — in Go this object is shared with the producer. -/
structure RespondOut where
  result : Except ErrCode Unit
  srv : NotificationService
  finalPending : Option pendingNotification
  deriving Repr

/-- `Respond`: look the id up (absent ⇒ `DeadlineExceeded`), validate the
payload (invalid ⇒ `InvalidArgument`, state untouched), then — if the entry
is not yet closed — send the response on its channel and close it, and in
all accepted cases delete the entry from the table. -/
def Respond (srv : NotificationService) (req : RespondRequest) : RespondOut :=
  match srv.pendingNotifications.lookup req.RequestId with
  | none => { result := .error .deadlineExceeded, srv := srv, finalPending := none }
  | some pending =>
    if !validateResponse req.Response pending.message.Request then
      { result := .error .invalidArgument, srv := srv, finalPending := some pending }
    else
      let pending' :=
        if !pending.closed then (pending.send req.Response).close else pending
      { result := .ok (),
        srv := { srv with
          pendingNotifications := removeKey pending.message.RequestId srv.pendingNotifications },
        finalPending := some pending' }

/-- Modelled from the spec: the broker shutdown routine is not part of the
source file (only `subscription.close` and `pendingNotification.close` are);
per the failure table, shutdown closes every subscription and every pending
entry, so in-flight Notify calls observe closed channels. -/
def shutdown (srv : NotificationService) : NotificationService :=
  { srv with
    subscriptions := srv.subscriptions.map subscription.close,
    pendingNotifications := srv.pendingNotifications.map (fun e => (e.1, e.2.close)) }

/-- The subscription after a successful enqueue of `msg` onto its queue. -/
def enqueueSub (s : subscription) (msg : SubscribeResponse) : subscription :=
  { s with channel := { s.channel with buffer := s.channel.buffer ++ [msg] } }

/-! ### Concrete fixtures for witnesses and counterexamples -/

/-- A request used by witnesses: blocking, with two actions. -/
def reqBlock : NotifyRequest :=
  { Message := "reload?", Active := true, Actions := ["yes", "no"],
    Open := none, Preview := none }

/-- A request used by witnesses: non-blocking pure information. -/
def reqInfo : NotifyRequest :=
  { Message := "hi", Active := true, Actions := [], Open := none, Preview := none }

/-- A blocking pending-table entry used by witnesses. -/
def pendingBlock : pendingNotification :=
  { message := { RequestId := 0, Request := reqBlock },
    responseChannel := { buffer := [], closed := false }, closed := false }

/-- A non-blocking pending-table entry after creation: response pre-loaded
and entry closed. -/
def pendingInfoDone : pendingNotification :=
  { message := { RequestId := 0, Request := reqInfo },
    responseChannel := { buffer := [emptyNotifyResponse], closed := true }, closed := true }

/-- A broker whose pending table is at the 120-entry capacity. -/
def brokerFull : NotificationService :=
  { nextSubscriptionID := 0, subscriptions := [], nextNotificationID := 120,
    pendingNotifications := (List.range 120).map (fun i => (i, pendingBlock)) }

/-- An envelope used to fill a subscriber queue in fixtures. -/
def envMsg : SubscribeResponse := { RequestId := 0, Request := reqInfo }

/-- An active subscriber whose queue of capacity 100 is full. -/
def subFull : subscription :=
  { id := 0, active := true,
    channel := { buffer := List.replicate 100 envMsg, capacity := 100, closed := false },
    closed := false, cancelled := false }

/-- An active subscriber with an empty queue of capacity 100. -/
def subRoom : subscription :=
  { id := 1, active := true,
    channel := { buffer := [], capacity := 100, closed := false },
    closed := false, cancelled := false }

/-- A broker with the full subscriber and the roomy subscriber registered. -/
def brokerTwoSubs : NotificationService :=
  { nextSubscriptionID := 2, subscriptions := [subFull, subRoom],
    nextNotificationID := 0, pendingNotifications := [] }

/-- A broker with only the full subscriber registered. -/
def brokerOneFullSub : NotificationService :=
  { nextSubscriptionID := 1, subscriptions := [subFull],
    nextNotificationID := 0, pendingNotifications := [] }

/-- A broker with only the roomy subscriber registered. -/
def brokerOneRoomSub : NotificationService :=
  { nextSubscriptionID := 2, subscriptions := [subRoom],
    nextNotificationID := 0, pendingNotifications := [] }

/-- A broker with one blocking pending entry under id 0. -/
def brokerOnePending : NotificationService :=
  { nextSubscriptionID := 0, subscriptions := [], nextNotificationID := 1,
    pendingNotifications := [(0, pendingBlock)] }

/-- A broker with one already-closed non-blocking pending entry under id 0. -/
def brokerOneDone : NotificationService :=
  { nextSubscriptionID := 0, subscriptions := [], nextNotificationID := 1,
    pendingNotifications := [(0, pendingInfoDone)] }

/-- A broker with one subscriber and one blocking pending entry. -/
def broker9 : NotificationService :=
  { nextSubscriptionID := 2, subscriptions := [subRoom], nextNotificationID := 1,
    pendingNotifications := [(0, pendingBlock)] }

/-! ### Helper lemmas -/

/-- Closing a subscription always sets its closed flag. -/
theorem subscription.close_closed (s : subscription) : s.close.closed = true := by
  unfold subscription.close
  split
  · assumption
  · rfl

/-- Closing a pending notification always sets its closed flag. -/
theorem pendingNotification.close_sets_closed (p : pendingNotification) :
    p.close.closed = true := by
  unfold pendingNotification.close
  split
  · assumption
  · rfl

/-- Closing a subscription never touches its queue contents. -/
theorem subscription.close_buffer (s : subscription) :
    s.close.channel.buffer = s.channel.buffer := by
  unfold subscription.close
  split <;> rfl

/-- Characterization of the fan-out loop: the registry after the loop is
the eligible entries whose try-send succeeded (updated) together with the
ineligible entries (unchanged), and the evicted list is exactly the closed
eligible entries whose queue was full. -/
theorem fanOut_eq (msg : SubscribeResponse) (req : NotifyRequest)
    (subs : List subscription) :
    fanOut msg req subs =
      (subs.filterMap (fun s => if s.supports req then trySend s msg else some s),
       (subs.filter
          (fun s => s.supports req &&
            !decide (s.channel.buffer.length < s.channel.capacity))).map
         subscription.close) := by
  induction subs with
  | nil => rfl
  | cons s rest ih =>
    by_cases hs : s.supports req = true
    · by_cases hroom : s.channel.buffer.length < s.channel.capacity
      · simp [fanOut, ih, trySend, hs, hroom, List.filterMap_cons, List.filter_cons]
      · simp [fanOut, ih, trySend, hs, hroom, List.filterMap_cons, List.filter_cons]
    · simp [fanOut, ih, hs, List.filterMap_cons, List.filter_cons]

/-- The fan-out loop keeps an ineligible subscription unchanged. -/
theorem fanOut_kept_of_ineligible (msg : SubscribeResponse) (req : NotifyRequest)
    (subs : List subscription) (s : subscription) (hs : s ∈ subs)
    (hsup : s.supports req = false) : s ∈ (fanOut msg req subs).1 := by
  rw [fanOut_eq]
  exact List.mem_filterMap.mpr ⟨s, hs, by simp [hsup]⟩

/-- The fan-out loop enqueues the envelope onto every eligible subscription
with spare queue capacity. -/
theorem fanOut_kept_of_room (msg : SubscribeResponse) (req : NotifyRequest)
    (subs : List subscription) (s : subscription) (hs : s ∈ subs)
    (hsup : s.supports req = true)
    (hroom : s.channel.buffer.length < s.channel.capacity) :
    enqueueSub s msg ∈ (fanOut msg req subs).1 := by
  rw [fanOut_eq]
  exact List.mem_filterMap.mpr ⟨s, hs, by simp [hsup, trySend, hroom, enqueueSub]⟩

/-- The fan-out loop evicts (closes) every eligible subscription whose
queue is full. -/
theorem fanOut_evicted_of_full (msg : SubscribeResponse) (req : NotifyRequest)
    (subs : List subscription) (s : subscription) (hs : s ∈ subs)
    (hsup : s.supports req = true)
    (hfull : s.channel.capacity ≤ s.channel.buffer.length) :
    s.close ∈ (fanOut msg req subs).2 := by
  rw [fanOut_eq]
  exact List.mem_map.mpr
    ⟨s, List.mem_filter.mpr ⟨hs, by simp [hsup, Nat.not_lt.mpr hfull]⟩, rfl⟩

/-- Every subscription kept by the fan-out loop descends from a registry
entry with the same id: either an ineligible entry kept verbatim, or an
eligible entry whose try-send succeeded. -/
theorem fanOut_kept_source (msg : SubscribeResponse) (req : NotifyRequest)
    (subs : List subscription) :
    ∀ t ∈ (fanOut msg req subs).1, ∃ x ∈ subs, x.id = t.id ∧
      ((x.supports req = false ∧ t = x) ∨
       (x.supports req = true ∧ trySend x msg = some t)) := by
  rw [fanOut_eq]
  intro t ht
  obtain ⟨x, hx, hfx⟩ := List.mem_filterMap.mp ht
  by_cases hsup : x.supports req = true
  · refine ⟨x, hx, ?_, Or.inr ⟨hsup, by simpa [hsup] using hfx⟩⟩
    simp only [hsup, if_true, trySend] at hfx
    split at hfx
    · cases hfx; rfl
    · cases hfx
  · have hx' : x = t := by simpa [hsup] using hfx
    exact ⟨x, hx, by rw [hx'],
      Or.inl ⟨Bool.eq_false_iff.mpr (fun h => hsup h), hx'.symm⟩⟩

/-- Looking a key up after a keyed deletion always fails. -/
theorem lookup_removeKey (k : Nat) (l : List (Nat × pendingNotification)) :
    (removeKey k l).lookup k = none := by
  induction l with
  | nil => rfl
  | cons e rest ih =>
    by_cases he : e.1 = k
    · simpa [removeKey, List.filter_cons, he] using ih
    · have hne : (k == e.1) = false := by
        simp [BEq.beq]
        exact fun h => he h.symm
      simp only [removeKey, List.filter_cons] at ih ⊢
      simp [he, List.lookup, hne, ih]

/-- Lookup commutes with mapping a function over the values of the table. -/
theorem lookup_map_close (k : Nat) (l : List (Nat × pendingNotification)) :
    (l.map (fun e => (e.1, e.2.close))).lookup k = (l.lookup k).map pendingNotification.close := by
  induction l with
  | nil => rfl
  | cons e rest ih =>
    by_cases he : (k == e.1) = true
    · simp [List.lookup, he]
    · simp [List.lookup, he, ih]

/-! ### Theorems for the claims -/

/-- The envelopes replayed to a joining subscriber are exactly those of the
eligible pending entries, in table order. -/
theorem replay_msgs (a : Bool) (l : List (Nat × pendingNotification)) :
    (replay a l).1 =
      (l.filter (fun e => e.2.message.Request.Active == a)).map (fun e => e.2.message) := by
  induction l with
  | nil => rfl
  | cons e rest ih =>
    simp only [replay, List.filter_cons]
    by_cases hel : (e.2.message.Request.Active == a) = true
    · by_cases hb : isBlocking e.2.message.Request = true <;>
        simp [hel, hb, ih]
    · simp [hel, ih]

/-- The pending table after replay keeps exactly the entries that are
ineligible or blocking. -/
theorem replay_kept (a : Bool) (l : List (Nat × pendingNotification)) :
    (replay a l).2 =
      l.filter (fun e => !(e.2.message.Request.Active == a) || isBlocking e.2.message.Request) := by
  induction l with
  | nil => rfl
  | cons e rest ih =>
    simp only [replay, List.filter_cons]
    by_cases hel : (e.2.message.Request.Active == a) = true
    · by_cases hb : isBlocking e.2.message.Request = true <;>
        simp [hel, hb, ih]
    · simp [hel, ih]

/-! ### Claim theorems -/

/-- C1: `Respond`'s validation accepts a response iff the command is
populated with a non-empty `Cmd`, or there is no command and the action is
empty (user cancellation), or there is no command and the action is one of
the request's actions. -/
theorem c1_validateResponse_accepts_iff (resp : NotifyResponse) (req : NotifyRequest) :
    validateResponse resp req = true ↔
      ((∃ c, resp.Command = some c ∧ c.Cmd ≠ "") ∨
       (resp.Command = none ∧ resp.Action = "") ∨
       (resp.Command = none ∧ resp.Action ∈ req.Actions)) := by
  cases hc : resp.Command with
  | some c =>
    simp [validateResponse, hc]
  | none =>
    by_cases ha : resp.Action = ""
    · simp [validateResponse, hc, ha]
    · simp [validateResponse, hc, ha]

/-- C2: a request is blocking iff its action list is non-empty, `Open` is
set, or `Preview` is set; and the dispatcher pre-loads the single-slot
response channel with an empty response (closing the entry) exactly for the
non-blocking requests. -/
theorem c2_isBlocking_iff (srv : NotificationService) (req : NotifyRequest) :
    (isBlocking req = true ↔ (req.Actions ≠ [] ∨ req.Open.isSome ∨ req.Preview.isSome)) ∧
    (((notifySubscribers srv req).2.2.responseChannel.buffer = [emptyNotifyResponse] ∧
      (notifySubscribers srv req).2.2.closed = true) ↔ isBlocking req = false) := by
  constructor
  · simp [isBlocking, List.isEmpty_iff, or_assoc]
  · cases hb : isBlocking req with
    | true =>
      simp [notifySubscribers, hb]
    | false =>
      simp [notifySubscribers, hb, pendingNotification.send, pendingNotification.close]

/-- C4: when a subscriber joins, exactly the eligible pending entries are
enqueued (in table order) onto the new subscription's queue, and the pending
table afterwards keeps exactly the entries that are ineligible or blocking —
eligible non-blocking entries are removed by the replay. -/
theorem c4_subscribe_replay (srv : NotificationService) (req : SubscribeRequest) :
    (subscribeLocked srv req).2.channel.buffer =
      (srv.pendingNotifications.filter
        (fun e => e.2.message.Request.Active == req.Active)).map (fun e => e.2.message) ∧
    (subscribeLocked srv req).1.pendingNotifications =
      srv.pendingNotifications.filter
        (fun e => !(e.2.message.Request.Active == req.Active) ||
          isBlocking e.2.message.Request) := by
  exact ⟨by simp [subscribeLocked, replay_msgs], by simp [subscribeLocked, replay_kept]⟩

/-- C5: if the pending table holds at least 120 entries, `Notify` fails with
`ResourceExhausted` and the broker state is unchanged: no id is consumed, no
envelope is enqueued, no pending entry is created. -/
theorem c5_admission_resourceExhausted (srv : NotificationService) (req : NotifyRequest)
    (h : NotifierMaxPendingNotifications ≤ srv.pendingNotifications.length) :
    Notify srv req = (.error .resourceExhausted, srv) := by
  simp [Notify, h]

/-- Witness for C5 at a broker holding 120 pending entries. -/
theorem c5_admission_resourceExhausted_witness :
    Notify brokerFull reqBlock = (.error .resourceExhausted, brokerFull) :=
  c5_admission_resourceExhausted brokerFull reqBlock
    (by simp [brokerFull, NotifierMaxPendingNotifications])

/-- C7: a `Respond` whose request id is absent from the pending table fails
with `DeadlineExceeded` and leaves the broker unchanged. -/
theorem c7_respond_unknown_id (srv : NotificationService) (req : RespondRequest)
    (h : srv.pendingNotifications.lookup req.RequestId = none) :
    Respond srv req = { result := .error .deadlineExceeded, srv := srv, finalPending := none } := by
  simp [Respond, h]

/-- Witness for C7: responding on a fresh broker with id 5. -/
theorem c7_respond_unknown_id_witness :
    Respond NewNotificationService { RequestId := 5, Response := emptyNotifyResponse } =
      { result := .error .deadlineExceeded, srv := NewNotificationService,
        finalPending := none } :=
  c7_respond_unknown_id NewNotificationService
    { RequestId := 5, Response := emptyNotifyResponse } (by simp [NewNotificationService])

/-- C3 counterexample: a non-blocking `Notify` against a broker with one
eligible subscriber whose queue is full still returns the empty response
immediately, but the eligible subscriber is NOT enqueued the envelope — it
is evicted from the registry instead, so "every eligible subscriber is
enqueued the envelope" fails. -/
theorem c3_counterexample :
    subFull.supports reqInfo = true ∧
    isBlocking reqInfo = false ∧
    (Notify brokerOneFullSub reqInfo).1 = .ok (.response emptyNotifyResponse) ∧
    (Notify brokerOneFullSub reqInfo).2.subscriptions = [] ∧
    (notifySubscribers brokerOneFullSub reqInfo).2.1 = [subFull.close] ∧
    Notify brokerFull reqInfo = (.error .resourceExhausted, brokerFull) :=
  ⟨rfl, rfl, rfl, rfl, rfl, rfl⟩

/-- C3 (amended): a non-blocking `Notify` admitted under capacity returns
the empty response without waiting, the pending entry is created pre-loaded
and closed, and every eligible subscriber with spare queue capacity is
enqueued the envelope (eligible subscribers with full queues are evicted
instead). -/
theorem c3_nonblocking_notify (b : NotificationService) (req : NotifyRequest)
    (hnb : isBlocking req = false)
    (hcap : b.pendingNotifications.length < NotifierMaxPendingNotifications) :
    (Notify b req).1 = .ok (.response emptyNotifyResponse) ∧
    (∃ p, (Notify b req).2.pendingNotifications =
        b.pendingNotifications ++ [(b.nextNotificationID, p)] ∧
      p.closed = true ∧ p.responseChannel.buffer = [emptyNotifyResponse] ∧
      p.responseChannel.closed = true) ∧
    (∀ t ∈ b.subscriptions, t.supports req = true →
      t.channel.buffer.length < t.channel.capacity →
      enqueueSub t { RequestId := b.nextNotificationID, Request := req } ∈
        (Notify b req).2.subscriptions) ∧
    (∀ t ∈ b.subscriptions, t.supports req = true →
      t.channel.capacity ≤ t.channel.buffer.length →
      t.close ∈ (notifySubscribers b req).2.1) := by
  have hlt : ¬NotifierMaxPendingNotifications ≤ b.pendingNotifications.length :=
    Nat.not_le.mpr hcap
  refine ⟨?_, ?_, ?_, ?_⟩
  · simp [Notify, hlt, notifySubscribers, hnb, notifyWait,
      pendingNotification.send, pendingNotification.close]
  · refine ⟨pendingNotification.close
      (pendingNotification.send
        { message := { RequestId := b.nextNotificationID, Request := req },
          responseChannel := { buffer := [], closed := false }, closed := false }
        emptyNotifyResponse), ?_, ?_, ?_, ?_⟩ <;>
      simp [Notify, hlt, notifySubscribers, hnb,
        pendingNotification.send, pendingNotification.close]
  · intro t ht hsup hroom
    have h := fanOut_kept_of_room
      { RequestId := b.nextNotificationID, Request := req } req b.subscriptions t ht hsup hroom
    simpa [Notify, hlt, notifySubscribers] using h
  · intro t ht hsup hfull
    have h := fanOut_evicted_of_full
      { RequestId := b.nextNotificationID, Request := req } req b.subscriptions t ht hsup hfull
    simpa [notifySubscribers] using h

/-- Witness for C3 (amended): non-blocking notify with one roomy eligible
subscriber delivers the empty response and enqueues the envelope. -/
theorem c3_nonblocking_notify_witness :
    (Notify brokerOneRoomSub reqInfo).1 = .ok (.response emptyNotifyResponse) ∧
    enqueueSub subRoom { RequestId := 0, Request := reqInfo } ∈
      (Notify brokerOneRoomSub reqInfo).2.subscriptions :=
  have h := c3_nonblocking_notify brokerOneRoomSub reqInfo rfl (by decide)
  ⟨h.1, h.2.2.1 subRoom (List.mem_cons_self _ _) rfl (by decide)⟩

/-- C6: a `Respond` whose payload fails validation returns `InvalidArgument`
and leaves both the broker and the pending entry untouched (no send on the
channel, not closed), so a later `Respond` for the same id with a valid
payload succeeds. -/
theorem c6_respond_invalid_untouched (b : NotificationService) (rreq : RespondRequest)
    (p : pendingNotification)
    (hlk : b.pendingNotifications.lookup rreq.RequestId = some p)
    (hval : validateResponse rreq.Response p.message.Request = false) :
    Respond b rreq =
      { result := .error .invalidArgument, srv := b, finalPending := some p } ∧
    ∀ resp2 : NotifyResponse, validateResponse resp2 p.message.Request = true →
      (Respond b { RequestId := rreq.RequestId, Response := resp2 }).result = .ok () := by
  refine ⟨by simp [Respond, hlk, hval], ?_⟩
  intro resp2 h2
  simp [Respond, hlk, h2]

/-- Witness for C6: `action="maybe"` against `actions=["yes","no"]` is
rejected with the entry untouched; `action="yes"` then succeeds. -/
theorem c6_respond_invalid_untouched_witness :
    Respond brokerOnePending
        { RequestId := 0, Response := { Action := "maybe", Command := none } } =
      { result := .error .invalidArgument, srv := brokerOnePending,
        finalPending := some pendingBlock } ∧
    (Respond brokerOnePending
        { RequestId := 0, Response := { Action := "yes", Command := none } }).result =
      .ok () :=
  have h := c6_respond_invalid_untouched brokerOnePending
    { RequestId := 0, Response := { Action := "maybe", Command := none } }
    pendingBlock rfl (by decide)
  ⟨h.1, h.2 { Action := "yes", Command := none } (by decide)⟩

/-- C8: during fan-out, an eligible subscription with a full queue is
evicted: removed from the registry and closed, with the overflowing message
not delivered to it; eligible roomy subscriptions still receive the
envelope; and the producer-visible outcome of `Notify` does not depend on
the registry at all. -/
theorem c8_full_queue_eviction (b : NotificationService) (req : NotifyRequest)
    (s : subscription)
    (hnd : (b.subscriptions.map subscription.id).Nodup)
    (hs : s ∈ b.subscriptions) (hsup : s.supports req = true)
    (hfull : s.channel.capacity ≤ s.channel.buffer.length)
    (hopen : s.closed = false) :
    (s.close ∈ (notifySubscribers b req).2.1 ∧
     s.close.closed = true ∧ s.close.channel.closed = true ∧
     s.close.channel.buffer = s.channel.buffer) ∧
    (∀ t ∈ (notifySubscribers b req).1.subscriptions, t.id ≠ s.id) ∧
    (∀ t ∈ b.subscriptions, t.supports req = true →
      t.channel.buffer.length < t.channel.capacity →
      enqueueSub t { RequestId := b.nextNotificationID, Request := req } ∈
        (notifySubscribers b req).1.subscriptions) ∧
    (Notify b req).1 = (Notify { b with subscriptions := [] } req).1 := by
  refine ⟨⟨?_, subscription.close_closed s, ?_, subscription.close_buffer s⟩, ?_, ?_, ?_⟩
  · have h := fanOut_evicted_of_full
      { RequestId := b.nextNotificationID, Request := req } req b.subscriptions s hs hsup hfull
    simpa [notifySubscribers] using h
  · simp [subscription.close, hopen]
  · intro t ht heq
    have ht' : t ∈ (fanOut { RequestId := b.nextNotificationID, Request := req }
        req b.subscriptions).1 := by
      simpa [notifySubscribers] using ht
    obtain ⟨x, hx, hxid, hcase⟩ := fanOut_kept_source _ req b.subscriptions t ht'
    have hxs : x = s := List.inj_on_of_nodup_map hnd hx hs (by rw [hxid, heq])
    subst hxs
    rcases hcase with ⟨hns, _⟩ | ⟨_, hts⟩
    · rw [hsup] at hns; cases hns
    · rw [trySend, if_neg (Nat.not_lt.mpr hfull)] at hts
      cases hts
  · intro t ht hsup' hroom
    have h := fanOut_kept_of_room
      { RequestId := b.nextNotificationID, Request := req } req b.subscriptions t ht hsup' hroom
    simpa [notifySubscribers] using h
  · by_cases hA : NotifierMaxPendingNotifications ≤ b.pendingNotifications.length
    · simp [Notify, hA]
    · simp [Notify, hA, notifySubscribers]

/-- Witness for C8: the full subscriber is evicted and closed, the roomy
subscriber still receives the envelope, the producer outcome is unchanged. -/
theorem c8_full_queue_eviction_witness :
    subFull.close ∈ (notifySubscribers brokerTwoSubs reqInfo).2.1 ∧
    enqueueSub subRoom { RequestId := 0, Request := reqInfo } ∈
      (notifySubscribers brokerTwoSubs reqInfo).1.subscriptions ∧
    (Notify brokerTwoSubs reqInfo).1 =
      (Notify { brokerTwoSubs with subscriptions := [] } reqInfo).1 :=
  have h := c8_full_queue_eviction brokerTwoSubs reqInfo subFull
    (by decide) (List.mem_cons_self _ _) rfl (by decide) rfl
  ⟨h.1.1, h.2.2.1 subRoom (by simp [brokerTwoSubs]) rfl (by decide), h.2.2.2⟩

/-- C9: shutting the broker down closes every subscription and every pending
entry, and an in-flight blocking `Notify` (empty response buffer, entry not
yet closed) then observes its response channel closed and returns `Aborted`. -/
theorem c9_shutdown_closes_all (b : NotificationService) :
    (∀ s ∈ (shutdown b).subscriptions, s.closed = true) ∧
    (∀ e ∈ (shutdown b).pendingNotifications, e.2.closed = true) ∧
    (∀ k p, b.pendingNotifications.lookup k = some p →
      p.responseChannel.buffer = [] → p.closed = false →
      (shutdown b).pendingNotifications.lookup k = some p.close ∧
      notifyWait p.close = .aborted) := by
  refine ⟨?_, ?_, ?_⟩
  · intro s hs
    simp only [shutdown] at hs
    obtain ⟨x, _, rfl⟩ := List.mem_map.mp hs
    exact subscription.close_closed x
  · intro e he
    simp only [shutdown] at he
    obtain ⟨x, _, rfl⟩ := List.mem_map.mp he
    exact pendingNotification.close_sets_closed x.2
  · intro k p hk hbuf hop
    constructor
    · simp only [shutdown]
      rw [lookup_map_close, hk]
      rfl
    · simp [notifyWait, pendingNotification.close, hop, hbuf]

/-- Witness for C9 on a broker with one subscriber and a blocking entry. -/
theorem c9_shutdown_closes_all_witness :
    (shutdown broker9).pendingNotifications.lookup 0 = some pendingBlock.close ∧
    notifyWait pendingBlock.close = .aborted :=
  (c9_shutdown_closes_all broker9).2.2 0 pendingBlock rfl rfl rfl

/-- C10: a valid `Respond` for a still-tabled non-blocking entry (already
closed at creation) acknowledges success and removes the entry from the
table, but sends nothing further on the response channel — the entry handed
back is exactly the unmodified `p`. -/
theorem c10_respond_closed_entry (b : NotificationService) (rreq : RespondRequest)
    (p : pendingNotification)
    (hlk : b.pendingNotifications.lookup rreq.RequestId = some p)
    (hcl : p.closed = true)
    (hval : validateResponse rreq.Response p.message.Request = true)
    (hid : p.message.RequestId = rreq.RequestId) :
    Respond b rreq =
      { result := .ok (),
        srv := { b with
          pendingNotifications := removeKey rreq.RequestId b.pendingNotifications },
        finalPending := some p } ∧
    (Respond b rreq).srv.pendingNotifications.lookup rreq.RequestId = none := by
  have h1 : Respond b rreq =
      { result := .ok (),
        srv := { b with
          pendingNotifications := removeKey rreq.RequestId b.pendingNotifications },
        finalPending := some p } := by
    simp [Respond, hlk, hval, hcl, hid]
  exact ⟨h1, by rw [h1]; exact lookup_removeKey _ _⟩

/-- Witness for C10 on a broker holding one closed non-blocking entry. -/
theorem c10_respond_closed_entry_witness :
    Respond brokerOneDone { RequestId := 0, Response := emptyNotifyResponse } =
      { result := .ok (),
        srv := { brokerOneDone with
          pendingNotifications := removeKey 0 brokerOneDone.pendingNotifications },
        finalPending := some pendingInfoDone } ∧
    (Respond brokerOneDone
        { RequestId := 0, Response := emptyNotifyResponse }).srv.pendingNotifications.lookup 0 =
      none :=
  c10_respond_closed_entry brokerOneDone
    { RequestId := 0, Response := emptyNotifyResponse } pendingInfoDone rfl rfl rfl rfl

end Notification
